import Mathlib

/-!
# Verification of the potluck sign-up registry (`src/app.py`)

Shallow embedding of the data-handling core of `app.py`:

* `get_data` (lines 101–117): fetches the table from the Google-Sheets
  connection, normalises missing columns / empty frames to an empty table,
  fills NaN cells with `""`, and fails open (empty table plus an
  `st.error` display) when the read raises.
* `add_entry` (lines 119–136): re-fetches via `get_data`, performs the
  case-insensitive trimmed duplicate check on the `Dish` column, and on
  no match appends the candidate row and overwrites the sheet via
  `conn.update`.
* the `potluck_form` submit handler (lines 207–227): validates the name
  and dish fields, combines the contributor and optional partner names,
  and calls `add_entry`.

Python strings are modelled as `String`.  `str.strip` is `pyStrip`
(drop whitespace characters from both ends) and `str.lower` is `pyLower`
(character-wise lower-casing); both are defined by structural recursion
over the string's character list so that every definition in this file
evaluates inside the kernel.  The pandas `DataFrame` returned by
`conn.read` is modelled as a `RawFrame`: a list of column names together
with rows of optional cells (`none` ↦ NaN / missing).  A read that raises
an exception is the `ReadResult.failure` constructor.  Writes are made
explicit: an operation's result carries `Option (List Row)`, the full
table handed to `conn.update` (`none` when no write is issued).
-/

namespace Potluck

/-- Python `str.strip()`: the string with whitespace removed from both
ends.  (Python strips the Unicode whitespace class; the program's data is
ASCII, where the two coincide.) -/
def pyStrip (s : String) : String :=
  ⟨((s.data.dropWhile Char.isWhitespace).reverse.dropWhile Char.isWhitespace).reverse⟩

/-- Python `str.lower()`: character-wise lower-casing.  (Python lower-cases
per the Unicode tables; the program's dish names are compared after this
map, and on ASCII the two coincide.) -/
def pyLower (s : String) : String :=
  ⟨s.data.map Char.toLower⟩

/-- One stored row of the sheet after `get_data`'s normalisation:
all four fields are plain strings (`fillna("")`). -/
structure Row where
  name : String
  category : String
  dish : String
  note : String
deriving DecidableEq, Repr

/-- One raw row as returned by `conn.read`, before `fillna`:
each expected cell may be missing (NaN), modelled as `Option`. -/
structure RawRow where
  name? : Option String
  category? : Option String
  dish? : Option String
  note? : Option String
deriving DecidableEq, Repr

/-- A pandas `DataFrame` as returned by `conn.read`: its column labels
and its rows (cells of columns outside the expected four are irrelevant
to the program and are not modelled). -/
structure RawFrame where
  cols : List String
  rows : List RawRow
deriving DecidableEq, Repr

/-- `df.empty`: a pandas frame is empty when either axis has length 0. -/
def RawFrame.isEmpty (f : RawFrame) : Bool :=
  f.rows.isEmpty || f.cols.isEmpty

/-- The outcome of `conn.read(ttl=5)`: either an exception
(store unreachable) or a dataframe. -/
inductive ReadResult where
  | failure
  | frame (f : RawFrame)
deriving DecidableEq, Repr

/-- `expected_cols = ["Name", "Category", "Dish", "Note"]` (line 106). -/
def expected_cols : List String := ["Name", "Category", "Dish", "Note"]

/-- `df.fillna("")` on one row: every missing cell becomes `""` (line 114). -/
def fillRow (r : RawRow) : Row :=
  ⟨r.name?.getD "", r.category?.getD "", r.dish?.getD "", r.note?.getD ""⟩

/-- What `get_data` hands back to its caller: the normalised rows, and
whether the `st.error` in the `except` branch fired (the user-visible
signal that the store could not be read). -/
structure Snapshot where
  rows : List Row
  storeError : Bool
deriving DecidableEq, Repr

/-- `get_data()` (lines 101–117): on a successful read, an empty frame or
one missing any expected column yields the empty table, otherwise the
rows with NaN filled by `""`; on an exception, the empty table plus the
error display. -/
def get_data : ReadResult → Snapshot
  | .failure => ⟨[], true⟩
  | .frame f =>
      if f.isEmpty || !(expected_cols.all fun c => f.cols.contains c) then
        ⟨[], false⟩
      else
        ⟨f.rows.map fillRow, false⟩

/-- The normalisation applied to both sides of the duplicate check
(line 124): `x.lower().strip()`. -/
def normDish (s : String) : String := pyStrip (pyLower s)

/-- The duplicate check of line 124:
`not df.empty and dish.lower().strip() in df['Dish'].str.lower().str.strip().values`. -/
def isDuplicate (df : List Row) (dish : String) : Bool :=
  !df.isEmpty && df.any fun row => normDish row.dish == normDish dish

/-- Result of `add_entry`: the returned `(success, message)` pair and the
full table passed to `conn.update` (`none` when no write was issued). -/
structure AddResult where
  ok : Bool
  message : String
  written : Option (List Row)
deriving DecidableEq, Repr

/-- `add_entry(name, category, dish, note)` (lines 119–136): re-fetches
via `get_data`, rejects duplicates with no write, otherwise appends the
new row (`pd.concat`, candidate last) and overwrites the sheet. -/
def add_entry (r : ReadResult) (name category dish note : String) : AddResult :=
  let df := (get_data r).rows
  if isDuplicate df dish then
    ⟨false, "This dish is already on the list! Please bring something else.", none⟩
  else
    let updated := df ++ [⟨name, category, dish, note⟩]
    ⟨true, "Dish added successfully!", some updated⟩

/-- `CATEGORIES` (line 194): the options offered by the category
selectbox — the only place the category set appears in the program. -/
def CATEGORIES : List String :=
  ["🍗 Mains", "🥗 Sides & Apps", "🍰 Dessert", "🍺 Drinks", "🥨 Appetizers"]

/-- The five form fields collected by `potluck_form` (lines 194–203). -/
structure FormInput where
  category : String
  dish : String
  name : String
  partner : String
  note : String
deriving DecidableEq, Repr

/-- The name combination of lines 214–216: `full_name = f_name.strip()`,
then `full_name += f" & {f_partner.strip()}"` when the stripped partner
field is non-empty (Python truthiness of the stripped string). -/
def full_name (nm partner : String) : String :=
  let fn := pyStrip nm
  if pyStrip partner = "" then fn else fn ++ " & " ++ pyStrip partner

/-- The candidate row built by a validated submission: combined name,
category, dish and note exactly as given to `add_entry` (line 218). -/
def candidateRow (inp : FormInput) : Row :=
  ⟨full_name inp.name inp.partner, inp.category, inp.dish, inp.note⟩

/-- The user-visible outcome of one submission: an `st.error` message or
the success toast. -/
inductive Outcome where
  | errorMsg (msg : String)
  | successMsg (msg : String)
deriving DecidableEq, Repr

/-- The submit handler of `potluck_form` (lines 207–227): validate the
name then the dish (fail fast, no write), combine the names, call
`add_entry`, and surface its message.  The second component is the table
written to the store (`none` when nothing was written). -/
def submitForm (r : ReadResult) (inp : FormInput) : Outcome × Option (List Row) :=
  if pyStrip inp.name = "" then
    (.errorMsg "Please enter your name.", none)
  else if pyStrip inp.dish = "" then
    (.errorMsg "Please tell us what you're bringing.", none)
  else
    let res := add_entry r (full_name inp.name inp.partner) inp.category inp.dish inp.note
    if res.ok then (.successMsg res.message, res.written)
    else (.errorMsg res.message, res.written)

/-- Re-encode a normalised table as the frame a faithful store hands back
for it: the four expected columns, every cell present. -/
def toRawRow (r : Row) : RawRow :=
  ⟨some r.name, some r.category, some r.dish, some r.note⟩

/-- The frame `conn.read` returns for a stored table when the read
succeeds and the adapter cache is empty: header row plus the data rows. -/
def tableToFrame (t : List Row) : RawFrame :=
  ⟨expected_cols, t.map toRawRow⟩

/-- One page interaction in the sequential (single-session) model, where
the adapter read reflects the current table: the table after a submit is
the written table if a write was issued, the old table otherwise. -/
def stepSubmit (t : List Row) (inp : FormInput) : List Row :=
  ((submitForm (.frame (tableToFrame t)) inp).2).getD t

/-- A sequence of form submissions against the store, threading the
stored table through each. -/
def runSubmits (t : List Row) (inps : List FormInput) : List Row :=
  inps.foldl stepSubmit t

/-- The uniqueness invariant: no two stored rows have `Dish` values equal
under the case-insensitive whitespace-trimmed comparison. -/
def DishNodup (t : List Row) : Prop :=
  (t.map fun r => normDish r.dish).Nodup

instance (t : List Row) : Decidable (DishNodup t) := by
  unfold DishNodup; infer_instance

/-! A read has no write effect: `get_data`'s body (lines 101–117) never
calls `conn.update`.  To state this as a property of the embedding rather
than leave it implicit, reads are wrapped as operations carrying their
(absent) write. -/

/-- The result of running `get_data` as a store operation: the snapshot
it returns and the table it writes — `none`, since the function body
issues no `conn.update`. -/
structure ReadOp where
  snapshot : Snapshot
  written : Option (List Row)
deriving DecidableEq, Repr

/-- `get_data` as a store operation: returns its snapshot and issues no
write. -/
def get_data_op (r : ReadResult) : ReadOp :=
  ⟨get_data r, none⟩

/-- Two consecutive `get_data` calls against a table, threading the
stored state through the (absent) write of each call: yields the two row
sequences returned and the final stored table. -/
def readTwice (t : List Row) : List Row × List Row × List Row :=
  let o₁ := get_data_op (.frame (tableToFrame t))
  let t₁ := o₁.written.getD t
  let o₂ := get_data_op (.frame (tableToFrame t₁))
  (o₁.snapshot.rows, o₂.snapshot.rows, o₂.written.getD t₁)

/-! The adapter-level cache.  `get_data` reads through
`conn.read(ttl=5)` (line 104), which — as the program itself records
("Fetches data from Google Sheets with caching (TTL)", line 102, and
"Clear cache so the new entry shows up immediately" before `conn.reset()`
on lines 222–223) — serves a cached frame for up to 5 seconds instead of
the sheet's current contents.  A store with this cache is modelled as the
actual table plus an optional cached frame (present when the last read is
within the TTL). -/

/-- The external store as seen through the connection: the sheet's
current rows and the adapter's cached read result, `none` once expired
or reset. -/
structure CachedStore where
  table : List Row
  cache : Option RawFrame
deriving DecidableEq, Repr

/-- `conn.read(ttl=5)` on a reachable store: the cached frame when one is
live, otherwise the sheet's current contents. -/
def connRead (s : CachedStore) : RawFrame :=
  s.cache.getD (tableToFrame s.table)

/-- The form submit handler run against a reachable cached store: the
snapshot `add_entry` works from is whatever `conn.read` yields at the
moment of the call. -/
def submitCached (s : CachedStore) (inp : FormInput) : Outcome × Option (List Row) :=
  submitForm (.frame (connRead s)) inp

/-! ## Helper lemmas -/

theorem fillRow_toRawRow (r : Row) : fillRow (toRawRow r) = r := rfl

/-- Reading back a stored table through a faithful (uncached, reachable)
adapter returns exactly that table, with no error signalled. -/
theorem get_data_table (t : List Row) :
    get_data (.frame (tableToFrame t)) = ⟨t, false⟩ := by
  cases t with
  | nil => rfl
  | cons r rs =>
      show get_data (.frame ⟨expected_cols, (r :: rs).map toRawRow⟩) = _
      simp [get_data, RawFrame.isEmpty, expected_cols, List.map_map,
        Function.comp_def, fillRow_toRawRow]

/-- The line-124 membership test succeeds exactly when some stored row's
dish matches the candidate's under the lower-then-strip normalisation. -/
theorem isDuplicate_iff (t : List Row) (d : String) :
    isDuplicate t d = true ↔ ∃ r ∈ t, normDish r.dish = normDish d := by
  cases t <;> simp [isDuplicate, List.any_eq_true]

/-- A validated, non-duplicate submission: `add_entry` appends the
candidate row to the fetched table and overwrites the store with the
result. -/
theorem submit_success_eq (t : List Row) (inp : FormInput)
    (hn : pyStrip inp.name ≠ "") (hd : pyStrip inp.dish ≠ "")
    (hnd : ∀ r ∈ t, normDish r.dish ≠ normDish inp.dish) :
    submitForm (.frame (tableToFrame t)) inp =
      (.successMsg "Dish added successfully!", some (t ++ [candidateRow inp])) := by
  have hdup : isDuplicate t inp.dish = false := by
    rw [← Bool.not_eq_true, isDuplicate_iff]
    rintro ⟨r, hr, hEq⟩
    exact hnd r hr hEq
  simp [submitForm, add_entry, hn, hd, get_data_table, hdup, candidateRow]

/-- A validated submission whose dish matches a stored row: `add_entry`
reports the duplicate and issues no write. -/
theorem submit_duplicate_eq (t : List Row) (inp : FormInput)
    (hn : pyStrip inp.name ≠ "") (hd : pyStrip inp.dish ≠ "")
    (row : Row) (hmem : row ∈ t) (hdish : normDish row.dish = normDish inp.dish) :
    submitForm (.frame (tableToFrame t)) inp =
      (.errorMsg "This dish is already on the list! Please bring something else.", none) := by
  have hdup : isDuplicate t inp.dish = true :=
    (isDuplicate_iff t inp.dish).2 ⟨row, hmem, hdish⟩
  simp [submitForm, add_entry, hn, hd, get_data_table, hdup]

/-- One submission step preserves the uniqueness invariant, whatever the
input: failed validations and rejected duplicates write nothing, and an
accepted candidate's normalised dish was absent from the table. -/
theorem stepSubmit_nodup (t : List Row) (inp : FormInput) (h : DishNodup t) :
    DishNodup (stepSubmit t inp) := by
  unfold stepSubmit
  by_cases hn : pyStrip inp.name = ""
  · simp [submitForm, hn]; exact h
  by_cases hd : pyStrip inp.dish = ""
  · simp [submitForm, hn, hd]; exact h
  cases hdup : isDuplicate t inp.dish with
  | true =>
      rcases (isDuplicate_iff t inp.dish).1 hdup with ⟨r, hr, hEq⟩
      rw [submit_duplicate_eq t inp hn hd r hr hEq]
      exact h
  | false =>
      have hnd : ∀ r ∈ t, normDish r.dish ≠ normDish inp.dish := by
        intro r hr hEq
        exact absurd ((isDuplicate_iff t inp.dish).2 ⟨r, hr, hEq⟩)
          (by simp [hdup])
      rw [submit_success_eq t inp hn hd hnd]
      show DishNodup (t ++ [candidateRow inp])
      unfold DishNodup at h ⊢
      rw [List.map_append]
      refine h.append (List.nodup_singleton _) ?_
      intro x hx hx'
      simp only [List.map_cons, List.map_nil, List.mem_singleton] at hx'
      rcases List.mem_map.1 hx with ⟨r, hr, rfl⟩
      exact hnd r hr (by simpa [candidateRow] using hx')

/-! ## Claims -/

/-- Claim C1: starting from a table satisfying the uniqueness invariant,
no sequence of submit operations (in particular, of successful ones —
failed validations and rejected duplicates write nothing) ever produces a
stored table with two entries whose dish names are equal under the
case-insensitive, whitespace-trimmed comparison. -/
theorem C1_uniqueness_invariant (t : List Row) (h : DishNodup t)
    (inps : List FormInput) : DishNodup (runSubmits t inps) := by
  induction inps generalizing t with
  | nil => exact h
  | cons i is ih => exact ih _ (stepSubmit_nodup t i h)

/-- Witness for C1: running two concrete submissions (the second a
near-duplicate of the first) from the empty table keeps the invariant. -/
theorem C1_uniqueness_invariant_witness :
    DishNodup ([] : List Row) ∧
    DishNodup (runSubmits []
      [⟨"🍗 Mains", "Lasagna", "Alex", "", ""⟩,
       ⟨"🍰 Dessert", " LASAGNA ", "Maya", "", ""⟩]) :=
  ⟨by decide, C1_uniqueness_invariant [] (by decide) _⟩

/-- Claim C2 (evaluation at the failing input): when the store read
raises, `get_data` fails open to the empty table, so `add_entry` skips
the duplicate check and overwrites the sheet with a table holding only
the candidate row — it reports success, not store unavailability, and
whatever rows the remote table held are absent from the written table. -/
theorem C2_read_failure_clobbers :
    submitForm .failure ⟨"🍗 Mains", "Tacos", "Bob", "", ""⟩ =
      (.successMsg "Dish added successfully!", some [⟨"Bob", "🍗 Mains", "Tacos", ""⟩]) := by
  decide

/-- A cached-store state in which the sheet holds a Lasagna row but the
adapter cache (filled before that row was written) is still the empty
table. -/
def staleStore : CachedStore :=
  ⟨[⟨"Alex", "🍗 Mains", "Lasagna", ""⟩], some (tableToFrame [])⟩

/-- Counterexample to C3: with a live adapter cache, the snapshot used by
the duplicate check differs from the store's current contents — here the
sheet already holds "Lasagna", yet submitting "lasagna" is accepted and
written because the cached read is the empty table. -/
theorem C3_counterexample :
    (get_data (.frame (connRead staleStore))).rows ≠ staleStore.table ∧
    staleStore.table = [⟨"Alex", "🍗 Mains", "Lasagna", ""⟩] ∧
    submitCached staleStore ⟨"🍗 Mains", "lasagna", "Maya", "", ""⟩ =
      (.successMsg "Dish added successfully!", some [⟨"Maya", "🍗 Mains", "lasagna", ""⟩]) :=
  ⟨by decide, by decide, by decide⟩

/-- Claim C3 as amended: the submit handler obtains its snapshot by a new
adapter read at the time of the call (`add_entry` calls `get_data`
itself; no caller-held snapshot enters), and that snapshot equals the
store's current contents whenever the adapter's TTL cache is empty —
but, per the counterexample, not necessarily within the 5-second TTL. -/
theorem C3_fresh_read_up_to_cache (s : CachedStore) (inp : FormInput) :
    submitCached s inp = submitForm (.frame (connRead s)) inp ∧
    (s.cache = none → (get_data (.frame (connRead s))).rows = s.table) := by
  refine ⟨rfl, fun hc => ?_⟩
  rw [connRead, hc]
  simp [get_data_table]

/-- Witness for C3 (amended): with no live cache, the snapshot read at
submit time is exactly the stored table. -/
theorem C3_fresh_read_up_to_cache_witness :
    (get_data (.frame (connRead ⟨[⟨"Alex", "🍗 Mains", "Lasagna", ""⟩], none⟩))).rows =
      [⟨"Alex", "🍗 Mains", "Lasagna", ""⟩] :=
  (C3_fresh_read_up_to_cache ⟨[⟨"Alex", "🍗 Mains", "Lasagna", ""⟩], none⟩
    ⟨"🍗 Mains", "Tacos", "Bob", "", ""⟩).2 rfl

/-- Counterexample to C4: no category check exists anywhere in the
submit path — the category set is enforced only by the selectbox's fixed
options — so a candidate whose category is outside the fixed set is
accepted and written, not rejected with a validation error. -/
theorem C4_counterexample :
    "Pizza" ∉ CATEGORIES ∧
    submitForm (.frame (tableToFrame [])) ⟨"Pizza", "Tacos", "Alex", "", ""⟩ =
      (.successMsg "Dish added successfully!", some [⟨"Alex", "Pizza", "Tacos", ""⟩]) :=
  ⟨by decide, by decide⟩

/-- Claim C4 as amended: the handler checks the contributor name first
and the dish name second, each non-empty after trimming, failing fast
with the corresponding validation error and no write; no category
membership check is performed. -/
theorem C4_name_then_dish_checked (r : ReadResult) (inp : FormInput) :
    (pyStrip inp.name = "" →
      submitForm r inp = (.errorMsg "Please enter your name.", none)) ∧
    (pyStrip inp.name ≠ "" → pyStrip inp.dish = "" →
      submitForm r inp = (.errorMsg "Please tell us what you're bringing.", none)) := by
  constructor
  · intro hn; simp [submitForm, hn]
  · intro hn hd; simp [submitForm, hn, hd]

/-- Witness for C4 (amended): a whitespace-only name fails with the name
message even though the dish is also present; a whitespace-only dish with
a valid name fails with the dish message; neither writes. -/
theorem C4_name_then_dish_checked_witness :
    submitForm .failure ⟨"🍗 Mains", "Tacos", " ", "Sam", ""⟩ =
      (.errorMsg "Please enter your name.", none) ∧
    submitForm .failure ⟨"🍗 Mains", "  ", "Alex", "", ""⟩ =
      (.errorMsg "Please tell us what you're bringing.", none) :=
  ⟨(C4_name_then_dish_checked .failure ⟨"🍗 Mains", "Tacos", " ", "Sam", ""⟩).1 (by decide),
   (C4_name_then_dish_checked .failure ⟨"🍗 Mains", "  ", "Alex", "", ""⟩).2
     (by decide) (by decide)⟩

/-- Claim C5: a valid candidate whose dish matches some stored row's dish
under the trimmed case-folded comparison is rejected with the duplicate
message, no write is issued, and the stored table is unchanged. -/
theorem C5_duplicate_rejected (t : List Row) (inp : FormInput) (row : Row)
    (hn : pyStrip inp.name ≠ "") (hd : pyStrip inp.dish ≠ "")
    (hmem : row ∈ t) (hdish : normDish row.dish = normDish inp.dish) :
    submitForm (.frame (tableToFrame t)) inp =
      (.errorMsg "This dish is already on the list! Please bring something else.", none) ∧
    stepSubmit t inp = t := by
  have h := submit_duplicate_eq t inp hn hd row hmem hdish
  exact ⟨h, by simp [stepSubmit, h]⟩

/-- Witness for C5: the spec's own example — stored "Lasagna", submitted
" lasagna " — is rejected as a duplicate and the table keeps its single
row. -/
theorem C5_duplicate_rejected_witness :
    submitForm (.frame (tableToFrame [⟨"Alex", "🍗 Mains", "Lasagna", ""⟩]))
        ⟨"🍰 Dessert", " lasagna ", "Maya", "", ""⟩ =
      (.errorMsg "This dish is already on the list! Please bring something else.", none) ∧
    stepSubmit [⟨"Alex", "🍗 Mains", "Lasagna", ""⟩]
        ⟨"🍰 Dessert", " lasagna ", "Maya", "", ""⟩ =
      [⟨"Alex", "🍗 Mains", "Lasagna", ""⟩] :=
  C5_duplicate_rejected [⟨"Alex", "🍗 Mains", "Lasagna", ""⟩]
    ⟨"🍰 Dessert", " lasagna ", "Maya", "", ""⟩ ⟨"Alex", "🍗 Mains", "Lasagna", ""⟩
    (by decide) (by decide) (by decide) (by decide)

/-- Claim C6: a valid, non-duplicate submission writes back exactly the
fetched row sequence with the candidate appended as the last row: one row
added at the end, all prior rows unchanged in content and order. -/
theorem C6_append_exactly_one (t : List Row) (inp : FormInput)
    (hn : pyStrip inp.name ≠ "") (hd : pyStrip inp.dish ≠ "")
    (hnd : ∀ r ∈ t, normDish r.dish ≠ normDish inp.dish) :
    submitForm (.frame (tableToFrame t)) inp =
      (.successMsg "Dish added successfully!", some (t ++ [candidateRow inp])) :=
  submit_success_eq t inp hn hd hnd

/-- Witness for C6: adding "Brownies" to a one-row table writes the old
row first and the new row last. -/
theorem C6_append_exactly_one_witness :
    submitForm (.frame (tableToFrame [⟨"Alex", "🍗 Mains", "Lasagna", ""⟩]))
        ⟨"🍰 Dessert", "Brownies", "Maya", "", ""⟩ =
      (.successMsg "Dish added successfully!",
        some ([⟨"Alex", "🍗 Mains", "Lasagna", ""⟩] ++
          [candidateRow ⟨"🍰 Dessert", "Brownies", "Maya", "", ""⟩])) :=
  C6_append_exactly_one [⟨"Alex", "🍗 Mains", "Lasagna", ""⟩]
    ⟨"🍰 Dessert", "Brownies", "Maya", "", ""⟩ (by decide) (by decide) (by decide)

/-- Claim C7: a read yielding a frame with no data rows, or one missing
any of the expected columns (Name, Category, Dish, Note), produces the
empty row sequence with no error signalled. -/
theorem C7_empty_or_missing_cols (f : RawFrame)
    (h : f.rows = [] ∨ ∃ c ∈ expected_cols, f.cols.contains c = false) :
    get_data (.frame f) = ⟨[], false⟩ := by
  have hc : (f.isEmpty || !(expected_cols.all fun c => f.cols.contains c)) = true := by
    rcases h with h | ⟨c, hcmem, hnc⟩
    · simp [RawFrame.isEmpty, h]
    · have hall : (expected_cols.all fun c => f.cols.contains c) = false := by
        rw [← Bool.not_eq_true, List.all_eq_true]
        intro hall
        rw [hall c hcmem] at hnc
        simp at hnc
      rw [hall]
      simp
  show (if f.isEmpty || !(expected_cols.all fun c => f.cols.contains c) then
      (⟨[], false⟩ : Snapshot) else ⟨f.rows.map fillRow, false⟩) = ⟨[], false⟩
  rw [hc]
  rfl

/-- Witness for C7: a frame that has a data row but lacks the Category
and Note columns yields the empty snapshot, not an error. -/
theorem C7_empty_or_missing_cols_witness :
    get_data (.frame ⟨["Name", "Dish"], [⟨some "Alex", none, some "Lasagna", none⟩]⟩) =
      ⟨[], false⟩ :=
  C7_empty_or_missing_cols ⟨["Name", "Dish"], [⟨some "Alex", none, some "Lasagna", none⟩]⟩
    (Or.inr ⟨"Category", by decide, by decide⟩)

/-- Claim C8: `get_data` issues no write; on a failed read it returns the
empty snapshot with the store-error signal; and two consecutive reads
with no intervening writes return equal row sequences and leave the
stored table unchanged. -/
theorem C8_read_no_side_effects (r : ReadResult) (t : List Row) :
    (get_data_op r).written = none ∧
    (r = .failure → get_data r = ⟨[], true⟩) ∧
    (readTwice t).1 = (readTwice t).2.1 ∧
    (readTwice t).2.2 = t :=
  ⟨rfl, fun hr => by subst hr; rfl, rfl, rfl⟩

/-- Witness for C8: at the failed read and at a concrete one-row table. -/
theorem C8_read_no_side_effects_witness :
    (get_data_op .failure).written = none ∧
    get_data .failure = ⟨[], true⟩ ∧
    (readTwice [⟨"Alex", "🍗 Mains", "Lasagna", ""⟩]).1 =
      (readTwice [⟨"Alex", "🍗 Mains", "Lasagna", ""⟩]).2.1 :=
  ⟨(C8_read_no_side_effects .failure []).1,
   (C8_read_no_side_effects .failure []).2.1 rfl,
   (C8_read_no_side_effects .failure [⟨"Alex", "🍗 Mains", "Lasagna", ""⟩]).2.2.1⟩

/-- Claim C9: a successful submission stores, in the appended row's Name
field, the trimmed contributor name joined with " & " and the trimmed
partner name when the partner field is non-empty after trimming, and the
trimmed contributor name alone otherwise. -/
theorem C9_partner_name_combination (t : List Row) (inp : FormInput)
    (hn : pyStrip inp.name ≠ "") (hd : pyStrip inp.dish ≠ "")
    (hnd : ∀ r ∈ t, normDish r.dish ≠ normDish inp.dish) :
    (submitForm (.frame (tableToFrame t)) inp).2 = some (t ++ [candidateRow inp]) ∧
    (candidateRow inp).name =
      (if pyStrip inp.partner = "" then pyStrip inp.name
       else pyStrip inp.name ++ " & " ++ pyStrip inp.partner) :=
  ⟨by rw [submit_success_eq t inp hn hd hnd], rfl⟩

/-- Witness for C9: submitting with name " Alex " and partner " Sam "
stores the Name "Alex & Sam". -/
theorem C9_partner_name_combination_witness :
    (submitForm (.frame (tableToFrame []))
        ⟨"🍗 Mains", "Tacos", " Alex ", " Sam ", ""⟩).2 =
      some ([] ++ [candidateRow ⟨"🍗 Mains", "Tacos", " Alex ", " Sam ", ""⟩]) ∧
    (candidateRow ⟨"🍗 Mains", "Tacos", " Alex ", " Sam ", ""⟩).name =
      (if pyStrip " Sam " = "" then pyStrip " Alex "
       else pyStrip " Alex " ++ " & " ++ pyStrip " Sam ") :=
  C9_partner_name_combination [] ⟨"🍗 Mains", "Tacos", " Alex ", " Sam ", ""⟩
    (by decide) (by decide) (by decide)

/-- Claim C10: a successful submission stores the submitted dish and note
strings verbatim — the trimming and case-folding are applied only inside
the duplicate comparison, never to what is written. -/
theorem C10_verbatim_storage (t : List Row) (inp : FormInput)
    (hn : pyStrip inp.name ≠ "") (hd : pyStrip inp.dish ≠ "")
    (hnd : ∀ r ∈ t, normDish r.dish ≠ normDish inp.dish) :
    (submitForm (.frame (tableToFrame t)) inp).2 = some (t ++ [candidateRow inp]) ∧
    (candidateRow inp).dish = inp.dish ∧
    (candidateRow inp).note = inp.note :=
  ⟨by rw [submit_success_eq t inp hn hd hnd], rfl, rfl⟩

/-- Witness for C10: a dish submitted as " TaCoS " and a note " yum "
are stored with their whitespace and case intact. -/
theorem C10_verbatim_storage_witness :
    (submitForm (.frame (tableToFrame []))
        ⟨"🍗 Mains", " TaCoS ", "Alex", "", " yum "⟩).2 =
      some ([] ++ [candidateRow ⟨"🍗 Mains", " TaCoS ", "Alex", "", " yum "⟩]) ∧
    (candidateRow ⟨"🍗 Mains", " TaCoS ", "Alex", "", " yum "⟩).dish = " TaCoS " ∧
    (candidateRow ⟨"🍗 Mains", " TaCoS ", "Alex", "", " yum "⟩).note = " yum " :=
  C10_verbatim_storage [] ⟨"🍗 Mains", " TaCoS ", "Alex", "", " yum "⟩
    (by decide) (by decide) (by decide)

end Potluck
